import Mathlib

/-!
Verification development for the postgresql-mcp server's guarded dispatch
layer.  The TypeScript sources are shallowly embedded: each handler's pure
decision logic (validation, SQL classification, SQL text construction,
configuration resolution, and the pool manager's wrap/release discipline)
becomes an executable Lean function, and the spec's sentences become
theorems about those functions.
-/

namespace PgMcp

/-! ## String primitives

JavaScript string operations used by the handlers, modelled on `List Char`
so every definition reduces by computation.  All SQL keywords and phrases
involved are ASCII, where these models agree with JavaScript's
`toLowerCase()`, `trim()`, `startsWith()` and `includes()`.
-/

/-- The whitespace characters relevant to JavaScript `trim()` and `\s` for
the ASCII inputs the handlers deal with. -/
def jsWs (c : Char) : Bool := c == ' ' || c == '\t' || c == '\n' || c == '\r'

/-- JavaScript `s.trim()`. -/
def jsTrim (s : String) : String :=
  String.mk (((s.toList.dropWhile jsWs).reverse.dropWhile jsWs).reverse)

/-- JavaScript `s.toLowerCase()` (ASCII range; `Char.toLower` maps exactly
the letters A-Z). -/
def jsToLower (s : String) : String := String.mk (s.toList.map Char.toLower)

/-- JavaScript `s.startsWith(pat)`. -/
def jsStartsWith (s pat : String) : Bool := pat.toList.isPrefixOf s.toList

/-- JavaScript `haystack.includes(needle)`: `pat` occurs as a contiguous
substring of the character list. -/
def charsContainsSub (pat : List Char) : List Char → Bool
  | [] => pat.isEmpty
  | c :: rest => pat.isPrefixOf (c :: rest) || charsContainsSub pat rest

/-- JavaScript `s.includes(pat)` on strings. -/
def strContainsSub (s pat : String) : Bool :=
  charsContainsSub pat.toList s.toList

/-- First whitespace-delimited token of `s`, i.e. JavaScript
`s.split(/\s+/)[0]` for a string with no leading whitespace (the callers
always `trim()` first; for the empty string JavaScript also yields `""`). -/
def firstToken (s : String) : String :=
  String.mk (s.toList.takeWhile (fun c => !(jsWs c)))

/-- A single-quote character, used when rebuilding the handlers' error
message templates. -/
def squote : String := String.mk [Char.ofNat 39]

/-! ## Error model -/

/-- A `ValidationError` thrown by a tool handler, identified by its message
(the only observable data the handlers attach). -/
inductive ToolError where
  | validation (message : String)
deriving DecidableEq, Repr

/-! ## Read-query tool guard (src/tools/query.ts, handleQuery) -/

/-- Message of the `ValidationError` thrown by `handleQuery` for a
non-SELECT/WITH query (query.ts line 30). -/
def queryOnlyMsg : String :=
  "Query tool only supports SELECT and WITH statements for security reasons"

/-- Security check of `handleQuery` (query.ts lines 28-33): the trimmed,
lowercased query must start with the string "select" or "with"; otherwise a
`ValidationError` is thrown before `db.query` runs.  `.ok ()` means the
query is forwarded to the pool. -/
def queryGuard (query : String) : Except ToolError Unit :=
  let trimmedQuery := jsToLower (jsTrim query)
  if !(jsStartsWith trimmedQuery "select") && !(jsStartsWith trimmedQuery "with") then
    .error (.validation queryOnlyMsg)
  else
    .ok ()

/-! ## Mutate-execute tool guard (src/tools/execute.ts, handleExecute) -/

/-- execute.ts lines 14-24: commands the execute tool accepts as leading
verb. -/
def ALLOWED_COMMANDS : List String :=
  ["insert", "update", "delete", "create", "alter", "drop",
   "truncate", "grant", "revoke"]

/-- execute.ts lines 27-34: phrases blocked by substring containment. -/
def DANGEROUS_COMMANDS : List String :=
  ["drop database", "drop schema", "drop user", "drop role",
   "shutdown", "restart"]

/-- Message template of execute.ts line 57. -/
def dangerousCommandMsg (cmd : String) : String :=
  "Dangerous command detected: " ++ cmd ++
    ". This operation is not allowed for security reasons."

/-- Message template of execute.ts line 68. -/
def commandNotAllowedMsg (firstWord : String) : String :=
  "Command " ++ squote ++ firstWord ++ squote ++ " is not allowed. Allowed commands: " ++
    String.intercalate ", " ALLOWED_COMMANDS

/-- Message of execute.ts line 75 (the SELECT/WITH redirect branch). -/
def selectRedirectMsg : String :=
  "SELECT and WITH statements should use the postgresql_query tool instead"

/-- Security checks of `handleExecute` (execute.ts lines 51-77), in source
order: dangerous-phrase containment scan over the trimmed lowercased text
(first match throws), then the allowed-leading-verb check, then the
SELECT/WITH redirect check.  `.ok ()` means the command is forwarded to the
pool.  JavaScript's `!firstWord ||` disjunct is absorbed by the `contains`
check since `""` is not an allowed command. -/
def executeGuard (query : String) : Except ToolError Unit :=
  let trimmedQuery := jsToLower (jsTrim query)
  match DANGEROUS_COMMANDS.find? (fun cmd => strContainsSub trimmedQuery cmd) with
  | some cmd => .error (.validation (dangerousCommandMsg cmd))
  | none =>
    let firstWord := jsToLower (firstToken (jsTrim query))
    if !(ALLOWED_COMMANDS.contains firstWord) then
      .error (.validation (commandNotAllowedMsg firstWord))
    else if firstWord == "select" || jsStartsWith trimmedQuery "with" then
      .error (.validation selectRedirectMsg)
    else
      .ok ()

/-! ## Statement classifier as the spec describes it -/

/-- Classification verdict of spec section 4.3. -/
inductive Verdict where
  | ReadOnly
  | Mutating
  | Forbidden (reason : String)
deriving DecidableEq, Repr

/-- Modelled from the spec: the statement classifier of spec section 4.3 as
the claims restate it (the repository has no single classify function; the
checks live scattered in the two tool handlers).  Steps: normalize by trim
and lowercase; forbidden-phrase containment check first over the full
normalized text; then ReadOnly when the leading whitespace-delimited token
is "select" or the text begins with "with"; then Mutating for the listed
verbs; otherwise Forbidden. -/
def specClassify (sql : String) : Verdict :=
  let t := jsToLower (jsTrim sql)
  match DANGEROUS_COMMANDS.find? (fun p => strContainsSub t p) with
  | some p => .Forbidden p
  | none =>
    if firstToken t == "select" || jsStartsWith t "with" then .ReadOnly
    else if ALLOWED_COMMANDS.contains (firstToken t) then .Mutating
    else .Forbidden "unrecognized command"

/-- Modelled from the spec sentence behind the amended C1: the acceptance
condition the read-query handler actually implements — the trimmed
lowercased text starts with the string "select" or the string "with"
(a prefix test, not a leading-token test, with no forbidden-phrase
check). -/
def readOnlyPrefixSpec (sql : String) : Bool :=
  jsStartsWith (jsToLower (jsTrim sql)) "select" ||
    jsStartsWith (jsToLower (jsTrim sql)) "with"

/-! ## Table tools (tools/tables source, handleCreateTable and
handleDescribeTable) -/

/-- The identifier check of the table tools: JavaScript regex test
`^[a-zA-Z_][a-zA-Z0-9_]*$`. -/
def isValidIdentifier (s : String) : Bool :=
  match s.toList with
  | [] => false
  | c :: rest =>
    (c.isAlpha || c == '_') && rest.all (fun d => d.isAlphanum || d == '_')

/-- Message thrown for an invalid table name (both table tools use the same
fixed text; note it does not mention the rejected name). -/
def invalidTableNameMsg : String :=
  "Invalid table name. Table names must start with a letter or underscore and contain only letters, numbers, and underscores."

/-- Message thrown for an invalid column name; unlike the table-name case it
embeds the offending identifier. -/
def invalidColumnNameMsg (name : String) : String :=
  "Invalid column name " ++ squote ++ name ++ squote ++
    ". Column names must start with a letter or underscore and contain only letters, numbers, and underscores."

/-- A column definition as validated by `CreateTableParamsSchema`
(types.ts): `constraints` is optional and, per the schema, may be any
string including the empty one. -/
structure ColumnDef where
  name : String
  type : String
  constraints : Option String
deriving DecidableEq, Repr

/-- Identifier validation of `handleCreateTable`: table name first, then
each column name in order (the source loops and throws at the first
offender, which `find?` mirrors).  `.ok ()` means execution proceeds to
`db.createTable`. -/
def createTableGuard (tableName : String) (columns : List ColumnDef) :
    Except ToolError Unit :=
  if !(isValidIdentifier tableName) then
    .error (.validation invalidTableNameMsg)
  else
    match columns.find? (fun col => !(isValidIdentifier col.name)) with
    | some col => .error (.validation (invalidColumnNameMsg col.name))
    | none => .ok ()

/-- Identifier validation of `handleDescribeTable`: the table name alone.
`.ok ()` means execution proceeds to `db.describeTable` (a parameterized
catalog query). -/
def describeTableGuard (tableName : String) : Except ToolError Unit :=
  if !(isValidIdentifier tableName) then
    .error (.validation invalidTableNameMsg)
  else
    .ok ()

/-- Column fragment built by `DatabaseManager.createTable` (database.ts
lines 247-250): name, space, type, and — because JavaScript treats the
empty string as falsy in the conditional — a space plus the constraints
string only when it is supplied and nonempty. -/
def columnSqlFragment (col : ColumnDef) : String :=
  let constraintsSql :=
    match col.constraints with
    | some c => if c == "" then "" else " " ++ c
    | none => ""
  col.name ++ " " ++ col.type ++ constraintsSql

/-- SQL text built by `DatabaseManager.createTable` (database.ts lines
246-255) and handed to `execute`. -/
def createTableSQL (tableName : String) (columns : List ColumnDef)
    (ifNotExists : Bool) : String :=
  let columnDefs := String.intercalate ", " (columns.map columnSqlFragment)
  let ifNotExistsClause := if ifNotExists then "IF NOT EXISTS " else ""
  "CREATE TABLE " ++ ifNotExistsClause ++ tableName ++ " (" ++ columnDefs ++ ")"

/-- End-to-end pure behaviour of the create-table path: `handleCreateTable`
validates identifiers, and on success the SQL text that
`DatabaseManager.createTable` sends to the pool.  `.error` means no
statement reaches the pool. -/
def handleCreateTableSQL (tableName : String) (columns : List ColumnDef)
    (ifNotExists : Bool) : Except ToolError String :=
  match createTableGuard tableName columns with
  | .error e => .error e
  | .ok () => .ok (createTableSQL tableName columns ifNotExists)

/-- Spec-side rendering of claim C10's words, to be compared with the SQL
text the source builds: exactly "CREATE TABLE " followed by "IF NOT EXISTS "
when requested, the table name, and a parenthesized comma-separated column
list of name, space, type, and — when a nonempty constraints string is
present — a space and that string verbatim. -/
def createTableSQLClaim (tableName : String) (columns : List ColumnDef)
    (ifNotExists : Bool) : String :=
  "CREATE TABLE " ++ (if ifNotExists then "IF NOT EXISTS " else "") ++
    tableName ++ " (" ++
    String.intercalate ", "
      (columns.map (fun col =>
        col.name ++ " " ++ col.type ++
          (match col.constraints with
           | some c => if c == "" then "" else " " ++ c
           | none => ""))) ++ ")"

/-! ## Configuration resolution (types.ts DatabaseConfigSchema,
database.ts DatabaseManager.loadConfig) -/

/-- The immutable configuration produced by `DatabaseConfigSchema.parse`.
Numeric fields are `Int` (every value the loader can produce is an integer
or NaN, and NaN is modelled as `Option.none` on the raw side). -/
structure DatabaseConfig where
  host : String
  port : Int
  database : String
  user : String
  password : Option String
  ssl : Bool
  poolMin : Int
  poolMax : Int
  poolIdleTimeout : Int
  queryTimeout : Int
  maxRows : Int
deriving DecidableEq, Repr

/-- The numeric environment variables `loadConfig` reads, each an optional
raw string (`none` models an unset variable).  Fields mirror the
`POSTGRES_*` names.  `connectionTimeout` and `maxConnections` also appear
in the source's raw object but are stripped by the zod schema, which has no
field for them, so they are omitted here. -/
structure EnvConfig where
  host : Option String
  port : Option String
  database : Option String
  user : Option String
  password : Option String
  ssl : Option String
  poolMin : Option String
  poolMax : Option String
  poolIdleTimeout : Option String
  queryTimeout : Option String
  maxRows : Option String
deriving DecidableEq, Repr

/-- JavaScript `value || defaultString` applied to an optional environment
value: an unset variable and the empty string (falsy) both yield the
default. -/
def envOr (v : Option String) (dflt : String) : String :=
  match v with
  | some s => if s == "" then dflt else s
  | none => dflt

/-- Value of the maximal leading decimal-digit run, `none` when there is no
leading digit. -/
def leadingDigitsValue (l : List Char) : Option Nat :=
  let ds := l.takeWhile Char.isDigit
  if ds.isEmpty then none
  else some (ds.foldl (fun n c => 10 * n + (c.toNat - 48)) 0)

/-- JavaScript `parseInt(s, 10)`: skip leading whitespace, optional sign,
then the maximal run of decimal digits; `none` models NaN (no digit
found).  Trailing garbage is ignored, so `parseIntJS "12abc" = some 12`. -/
def parseIntJS (s : String) : Option Int :=
  match (jsTrim s).toList with
  | '-' :: rest => (leadingDigitsValue rest).map (fun n => -(n : Int))
  | '+' :: rest => (leadingDigitsValue rest).map (fun n => (n : Int))
  | l => (leadingDigitsValue l).map (fun n => (n : Int))

/-- The raw (pre-schema) configuration object `loadConfig` assembles.
Numeric fields are `Option Int`: `none` models JavaScript NaN from a failed
`parseInt`. -/
structure RawDbConfig where
  host : String
  port : Option Int
  database : String
  user : String
  password : Option String
  ssl : Bool
  poolMin : Option Int
  poolMax : Option Int
  poolIdleTimeout : Option Int
  queryTimeout : Option Int
  maxRows : Option Int
deriving DecidableEq, Repr

/-- The raw configuration object of `loadConfig` (database.ts lines 59-75)
when no connection string is supplied (`parsedConnection` empty, so every
field falls through to its environment variable or hard default). -/
def buildRawConfig (env : EnvConfig) : RawDbConfig :=
  { host := envOr env.host "localhost"
    port := parseIntJS (envOr env.port "5432")
    database := envOr env.database "postgres"
    user := envOr env.user "postgres"
    password := env.password
    ssl := env.ssl == some "true"
    poolMin := parseIntJS (envOr env.poolMin "2")
    poolMax := parseIntJS (envOr env.poolMax "10")
    poolIdleTimeout := parseIntJS (envOr env.poolIdleTimeout "30000")
    queryTimeout := parseIntJS (envOr env.queryTimeout "30000")
    maxRows := parseIntJS (envOr env.maxRows "1000") }

/-- One numeric field of `DatabaseConfigSchema`:
`z.number().int().positive()`.  NaN (`none`) fails `z.number()`; every
produced value is an integer, so `.int()` never rejects separately; a
non-positive value fails `.positive()`. -/
def zodPositiveInt (v : Option Int) : Except String Int :=
  match v with
  | some n => if 0 < n then .ok n else .error "Invalid database configuration"
  | none => .error "Invalid database configuration"

/-- `DatabaseConfigSchema.parse` (types.ts lines 4-16) on the raw object:
every numeric field must be a positive integer; string and boolean fields
pass through; there is no poolMin-vs-poolMax comparison anywhere in the
schema. -/
def schemaParse (raw : RawDbConfig) : Except String DatabaseConfig :=
  match zodPositiveInt raw.port, zodPositiveInt raw.poolMin,
        zodPositiveInt raw.poolMax, zodPositiveInt raw.poolIdleTimeout,
        zodPositiveInt raw.queryTimeout, zodPositiveInt raw.maxRows with
  | .ok port, .ok poolMin, .ok poolMax, .ok poolIdleTimeout,
      .ok queryTimeout, .ok maxRows =>
    .ok { host := raw.host, port := port, database := raw.database,
          user := raw.user, password := raw.password, ssl := raw.ssl,
          poolMin := poolMin, poolMax := poolMax,
          poolIdleTimeout := poolIdleTimeout, queryTimeout := queryTimeout,
          maxRows := maxRows }
  | _, _, _, _, _, _ => .error "Invalid database configuration"

/-- `DatabaseManager.loadConfig` (database.ts lines 32-83) with no
connection string: build the raw object from the environment, then let the
schema accept or reject it; rejection is fatal at startup (the constructor
throws). -/
def loadConfigEnv (env : EnvConfig) : Except String DatabaseConfig :=
  schemaParse (buildRawConfig env)

/-! ## Pool manager success/failure model (database.ts query, execute,
close) -/

/-- A raw driver ("pg") exception as the wrap sites observe it: `message`,
optional `code` and optional `detail`.  An empty message is falsy in
JavaScript. -/
structure RawError where
  message : String
  code : Option String
  detail : Option String
deriving DecidableEq, Repr

/-- Payload of a `DatabaseError` (types.ts lines 108-117). -/
structure DbErrorInfo where
  message : String
  code : Option String
  detail : Option String
deriving DecidableEq, Repr

/-- What escapes a pool-manager method to its caller on failure: either a
raw driver exception that was never wrapped, or a `DatabaseError`. -/
inductive DbFailure where
  | raw (e : RawError)
  | wrapped (e : DbErrorInfo)
deriving DecidableEq, Repr

/-- Whether the escaped failure is a `DatabaseError` (as opposed to a raw
driver exception type). -/
def DbFailure.isDatabaseError : DbFailure → Bool
  | .raw _ => false
  | .wrapped _ => true

/-- Result shape the pg driver returns for one statement: `rowCount` may be
null (`none`). -/
structure PgQueryResult (α : Type) where
  rows : List α
  rowCount : Option Int
  fields : List String
  command : String
deriving Repr

/-- `QueryResult` returned by `DatabaseManager.query` (types.ts lines
68-72). -/
structure QueryResultM (α : Type) where
  rows : List α
  rowCount : Int
  fields : List String
deriving Repr

/-- `ExecuteResult` returned by `DatabaseManager.execute` (types.ts lines
75-78). -/
structure ExecuteResultM where
  rowCount : Int
  command : String
deriving DecidableEq, Repr

/-- Observable pool events of one `query`/`execute` call, in order. -/
inductive DbEvent where
  | acquire
  | release
  | warnTruncation (returned : Nat) (limit : Nat)
deriving DecidableEq, Repr

/-- Number of `release` events in a trace. -/
def releaseCount (events : List DbEvent) : Nat :=
  events.countP (fun e => e == DbEvent.release)

/-- `error.message || defaultMsg` followed by code and detail, as both wrap
sites build their `DatabaseError`. -/
def wrapRawError (dfltMsg : String) (e : RawError) : DbErrorInfo :=
  { message := if e.message == "" then dfltMsg else e.message
    code := e.code
    detail := e.detail }

/-- `DatabaseManager.query` (database.ts lines 123-168) as a function of
the two effectful outcomes: `connect` (the `pool.connect()` on line 124,
outside the try block) and `run` (the `client.query` inside it).  On
success rows are truncated to `maxRows` with a warning event when the
driver returned more; on statement failure the error is wrapped; the
`finally` releases the client on both of those paths.  A failed `connect`
happens before the try/finally: nothing was acquired, nothing is released,
and the raw driver error escapes unwrapped. -/
def queryRun {α : Type} (cfg : DatabaseConfig) (connect : Except RawError Unit)
    (run : Except RawError (PgQueryResult α)) :
    Except DbFailure (QueryResultM α) × List DbEvent :=
  match connect with
  | .error e => (.error (.raw e), [])
  | .ok () =>
    match run with
    | .ok result =>
      let limitedRows := result.rows.take cfg.maxRows.toNat
      let warnEvents :=
        if cfg.maxRows < (result.rows.length : Int) then
          [DbEvent.warnTruncation result.rows.length cfg.maxRows.toNat]
        else []
      (.ok { rows := limitedRows, rowCount := result.rowCount.getD 0,
             fields := result.fields },
       DbEvent.acquire :: warnEvents ++ [DbEvent.release])
    | .error e =>
      (.error (.wrapped (wrapRawError "Query execution failed" e)),
       [DbEvent.acquire, DbEvent.release])

/-- `DatabaseManager.execute` (database.ts lines 170-209), same structure
as `queryRun`: `pool.connect()` outside the try, wrap-and-rethrow inside,
release in the `finally`; no row truncation; null `rowCount` becomes 0 and
an empty command string becomes "UNKNOWN". -/
def executeRun {α : Type} (connect : Except RawError Unit)
    (run : Except RawError (PgQueryResult α)) :
    Except DbFailure ExecuteResultM × List DbEvent :=
  match connect with
  | .error e => (.error (.raw e), [])
  | .ok () =>
    match run with
    | .ok result =>
      (.ok { rowCount := result.rowCount.getD 0,
             command := if result.command == "" then "UNKNOWN" else result.command },
       [DbEvent.acquire, DbEvent.release])
    | .error e =>
      (.error (.wrapped (wrapRawError "Command execution failed" e)),
       [DbEvent.acquire, DbEvent.release])

/-- The fixed `DatabaseError` payload `close` throws (database.ts line
284): a constant message with no engine code and no detail. -/
def closeErrorInfo : DbErrorInfo :=
  { message := "Failed to close database connection pool"
    code := none
    detail := none }

/-- `DatabaseManager.close` (database.ts lines 277-286) as a function of
the `pool.end()` outcome. -/
def closeRun (endOutcome : Except RawError Unit) : Except DbFailure Unit :=
  match endOutcome with
  | .ok () => .ok ()
  | .error _ => .error (.wrapped closeErrorInfo)

/-! ## Concrete sample values used by witnesses and counterexamples -/

/-- A concrete valid configuration (`maxRows` 2, so a three-row result
demonstrates truncation). -/
def sampleConfig : DatabaseConfig :=
  { host := "localhost", port := 5432, database := "postgres",
    user := "postgres", password := none, ssl := false, poolMin := 2,
    poolMax := 10, poolIdleTimeout := 30000, queryTimeout := 30000,
    maxRows := 2 }

/-- A concrete raw driver error carrying an engine code and detail. -/
def sampleRawError : RawError :=
  { message := "connection refused", code := some "ECONNREFUSED",
    detail := some "could not connect to server" }

/-- A concrete three-row driver result. -/
def sampleResult : PgQueryResult Nat :=
  { rows := [10, 20, 30], rowCount := some 3, fields := ["n"],
    command := "SELECT" }

/-- Environment with every variable unset. -/
def emptyEnv : EnvConfig :=
  { host := none, port := none, database := none, user := none,
    password := none, ssl := none, poolMin := none, poolMax := none,
    poolIdleTimeout := none, queryTimeout := none, maxRows := none }

/-- Environment requesting a pool minimum of 5 and a pool maximum of 2. -/
def poolMinMaxEnv : EnvConfig :=
  { emptyEnv with poolMin := some "5", poolMax := some "2" }

/-- The configuration the loader returns for `poolMinMaxEnv`. -/
def poolMinMaxConfig : DatabaseConfig :=
  { host := "localhost", port := 5432, database := "postgres",
    user := "postgres", password := none, ssl := false, poolMin := 5,
    poolMax := 2, poolIdleTimeout := 30000, queryTimeout := 30000,
    maxRows := 1000 }

/-- The configuration the loader returns for `emptyEnv`: every hard
default. -/
def defaultsConfig : DatabaseConfig :=
  { host := "localhost", port := 5432, database := "postgres",
    user := "postgres", password := none, ssl := false, poolMin := 2,
    poolMax := 10, poolIdleTimeout := 30000, queryTimeout := 30000,
    maxRows := 1000 }

/-- Environment whose port variable is set to a non-numeric string. -/
def badPortEnv : EnvConfig := { emptyEnv with port := some "abc" }

/-! ## Helper lemmas -/

/-- A pattern that is a prefix of a list is contained in it. -/
theorem charsContainsSub_of_isPrefixOf {pat l : List Char}
    (h : pat.isPrefixOf l = true) : charsContainsSub pat l = true := by
  cases l with
  | nil =>
    cases pat with
    | nil => rfl
    | cons c cs => simp [List.isPrefixOf] at h
  | cons c cs => simp [charsContainsSub, h]

/-- Containment finds the pattern wherever it sits between two context
lists. -/
theorem charsContainsSub_append (pre pat post : List Char) :
    charsContainsSub pat (pre ++ (pat ++ post)) = true := by
  induction pre with
  | nil =>
    refine charsContainsSub_of_isPrefixOf ?_
    rw [List.nil_append]
    exact List.isPrefixOf_iff_prefix.mpr (List.prefix_append pat post)
  | cons c pre ih =>
    simp only [List.cons_append, charsContainsSub, List.append_eq, ih,
      Bool.or_true]

/-- String-level version: `s` occurs in `a ++ s ++ b`. -/
theorem strContainsSub_append (a s b : String) :
    strContainsSub (a ++ s ++ b) s = true := by
  have : (a ++ s ++ b).toList = a.toList ++ (s.toList ++ b.toList) := by
    simp [String.toList, String.data_append]
  rw [strContainsSub, this]
  exact charsContainsSub_append _ _ _

/-- A successful `zodPositiveInt` value is strictly positive. -/
theorem zodPositiveInt_pos {v : Option Int} {n : Int}
    (h : zodPositiveInt v = .ok n) : 0 < n := by
  cases v with
  | none => exact absurd h (by simp [zodPositiveInt])
  | some m =>
    by_cases hm : 0 < m
    · have : m = n := by simpa [zodPositiveInt, hm] using h
      exact this ▸ hm
    · exact absurd h (by simp [zodPositiveInt, hm])

/-- Whenever any numeric field of the raw configuration is NaN (`none`),
the schema rejects the whole configuration. -/
theorem schemaParse_error_of_nan (raw : RawDbConfig)
    (h : raw.port = none ∨ raw.poolMin = none ∨ raw.poolMax = none ∨
      raw.poolIdleTimeout = none ∨ raw.queryTimeout = none ∨
      raw.maxRows = none) :
    schemaParse raw = .error "Invalid database configuration" := by
  unfold schemaParse
  split
  next port poolMin poolMax poolIdleTimeout queryTimeout maxRows
      h1 h2 h3 h4 h5 h6 =>
    rcases h with h | h | h | h | h | h
    · rw [h] at h1; exact absurd h1 (by simp [zodPositiveInt])
    · rw [h] at h2; exact absurd h2 (by simp [zodPositiveInt])
    · rw [h] at h3; exact absurd h3 (by simp [zodPositiveInt])
    · rw [h] at h4; exact absurd h4 (by simp [zodPositiveInt])
    · rw [h] at h5; exact absurd h5 (by simp [zodPositiveInt])
    · rw [h] at h6; exact absurd h6 (by simp [zodPositiveInt])
  next => rfl

/-! ## Claim C1 (read-query gating) -/

/-- C1 counterexample: the read-query operation does not gate on the
spec's classifier verdict.  A SELECT whose text contains the forbidden
phrase "drop database" is executed although the classifier verdict is
Forbidden (no forbidden-phrase check runs on the read path); a query whose
leading token is "selections" is executed although the verdict is not
ReadOnly (the code tests a string prefix, not the leading token); and the
rejection message does not direct the caller to the mutating-operation
tool. -/
theorem readQuery_not_classifier_gated_cex :
    (queryGuard "select drop database" = .ok () ∧
      specClassify "select drop database" = .Forbidden "drop database") ∧
    (queryGuard "selections from t" = .ok () ∧
      specClassify "selections from t" = .Forbidden "unrecognized command") ∧
    queryGuard "insert into t values (1)" = .error (.validation queryOnlyMsg) ∧
    strContainsSub queryOnlyMsg "execute" = false :=
  ⟨⟨rfl, rfl⟩, ⟨rfl, rfl⟩, rfl, rfl⟩

/-- C1 amended: the read-query operation forwards the query to the pool
exactly when the trimmed lowercased text starts with the string "select"
or the string "with" (a prefix test, with no forbidden-phrase containment
check); any other text fails with the fixed ValidationError message that
the query tool only supports SELECT and WITH statements. -/
theorem readQuery_prefix_gate (s : String) :
    (queryGuard s = .ok () ↔ readOnlyPrefixSpec s = true) ∧
    (readOnlyPrefixSpec s = false →
      queryGuard s = .error (.validation queryOnlyMsg)) := by
  unfold queryGuard readOnlyPrefixSpec
  cases h1 : jsStartsWith (jsToLower (jsTrim s)) "select" <;>
    cases h2 : jsStartsWith (jsToLower (jsTrim s)) "with" <;>
      simp [h1, h2]

/-- Witness for the amended C1 at two concrete inputs. -/
theorem readQuery_prefix_gate_witness :
    queryGuard "  SELECT 1" = .ok () ∧
    queryGuard "insert into t values (1)" =
      .error (.validation queryOnlyMsg) :=
  ⟨(readQuery_prefix_gate "  SELECT 1").1.mpr rfl,
   (readQuery_prefix_gate "insert into t values (1)").2 rfl⟩

/-! ## Claim C2 (forbidden-phrase containment check) -/

/-- C2: whenever the trimmed lowercased text of a mutate-execute request
contains any forbidden phrase as a substring, the handler fails with the
ValidationError naming the (first) offending phrase; the containment scan
is the first check, so this holds for every input text regardless of its
leading verb. -/
theorem execute_forbidden_phrase_first (s : String)
    (h : ∃ p ∈ DANGEROUS_COMMANDS,
      strContainsSub (jsToLower (jsTrim s)) p = true) :
    ∃ q ∈ DANGEROUS_COMMANDS,
      strContainsSub (jsToLower (jsTrim s)) q = true ∧
      executeGuard s = .error (.validation (dangerousCommandMsg q)) := by
  obtain ⟨p, hp, hc⟩ := h
  cases hf : DANGEROUS_COMMANDS.find?
      (fun cmd => strContainsSub (jsToLower (jsTrim s)) cmd) with
  | none =>
    exact absurd hc (by simpa using List.find?_eq_none.mp hf p hp)
  | some q =>
    refine ⟨q, List.mem_of_find?_eq_some hf, ?_, ?_⟩
    · simpa using List.find?_some hf
    · simp only [executeGuard]
      rw [hf]

/-- Witness for C2: an UPDATE statement hiding "drop database" in a
trailing comment is rejected with the phrase named. -/
theorem execute_forbidden_phrase_first_witness :
    ∃ q ∈ DANGEROUS_COMMANDS,
      strContainsSub
        (jsToLower (jsTrim "update t set x = 1 -- drop database")) q = true ∧
      executeGuard "update t set x = 1 -- drop database" =
        .error (.validation (dangerousCommandMsg q)) :=
  execute_forbidden_phrase_first "update t set x = 1 -- drop database"
    ⟨"drop database", by decide, rfl⟩

/-! ## Claim C4 (mutate-execute on a ReadOnly statement) -/

/-- C4: evaluating the mutate-execute checks at the failing input
"select 1".  The call does fail with a ValidationError, but its message is
the allowed-commands listing, which neither mentions the postgresql_query
tool nor equals the dedicated redirect message of the (unreachable)
SELECT/WITH branch. -/
theorem execute_select_error_lists_allowed :
    executeGuard "select 1" =
      .error (.validation (commandNotAllowedMsg "select")) ∧
    strContainsSub (commandNotAllowedMsg "select") "postgresql_query" = false ∧
    (commandNotAllowedMsg "select" == selectRedirectMsg) = false :=
  ⟨rfl, rfl, rfl⟩

/-! ## Claim C3 (error wrapping in the pool manager) -/

/-- C3 counterexample: a failure of connection acquisition is not wrapped.
`pool.connect()` sits outside the try block, so its raw driver error
escapes `query` as-is (not a DatabaseError); and the DatabaseError thrown
by `close` carries a fixed message with no engine code even when the
driver error had one. -/
theorem pool_connect_failure_unwrapped_cex :
    (@queryRun Nat sampleConfig (.error sampleRawError) (.ok sampleResult)).1
      = .error (.raw sampleRawError) ∧
    DbFailure.isDatabaseError (.raw sampleRawError) = false ∧
    closeRun (.error sampleRawError) = .error (.wrapped closeErrorInfo) ∧
    closeErrorInfo.code = none ∧
    sampleRawError.code = some "ECONNREFUSED" :=
  ⟨rfl, rfl, rfl, rfl, rfl⟩

/-- C3 amended: a failure of statement execution inside `query` or
`execute` is wrapped into a DatabaseError carrying the engine's code and
detail; a failure of `pool.end()` inside `close` is wrapped into a
DatabaseError with a fixed message and no code or detail; but a failure of
connection acquisition escapes both `query` and `execute` as the raw
driver error, unwrapped. -/
theorem pool_error_wrapping {α : Type} (cfg : DatabaseConfig) (e : RawError)
    (run : Except RawError (PgQueryResult α)) :
    (queryRun cfg (.ok ()) (.error e : Except RawError (PgQueryResult α))).1
        = .error (.wrapped (wrapRawError "Query execution failed" e)) ∧
    (executeRun (.ok ()) (.error e : Except RawError (PgQueryResult α))).1
        = .error (.wrapped (wrapRawError "Command execution failed" e)) ∧
    (wrapRawError "Query execution failed" e).code = e.code ∧
    (wrapRawError "Query execution failed" e).detail = e.detail ∧
    closeRun (.error e) = .error (.wrapped closeErrorInfo) ∧
    (queryRun cfg (.error e) run).1 = .error (.raw e) ∧
    (executeRun (.error e) run).1 = .error (.raw e) :=
  ⟨rfl, rfl, rfl, rfl, rfl, rfl, rfl⟩

/-! ## Claim C7 (row truncation in query) -/

/-- C7: a successful `query` call returns the driver rows truncated to
`maxRows` — never more than `maxRows` rows — and the truncation warning is
logged exactly when the driver returned more than `maxRows` rows. -/
theorem query_rows_bounded {α : Type} (cfg : DatabaseConfig)
    (result : PgQueryResult α) :
    (@queryRun α cfg (.ok ()) (.ok result)).1 =
      .ok { rows := result.rows.take cfg.maxRows.toNat,
            rowCount := result.rowCount.getD 0, fields := result.fields } ∧
    (result.rows.take cfg.maxRows.toNat).length ≤ cfg.maxRows.toNat ∧
    (cfg.maxRows < (result.rows.length : Int) ↔
      DbEvent.warnTruncation result.rows.length cfg.maxRows.toNat ∈
        (@queryRun α cfg (.ok ()) (.ok result)).2) := by
  refine ⟨rfl, ?_, ?_⟩
  · simp [List.length_take]
  · by_cases h : cfg.maxRows < (result.rows.length : Int) <;>
      simp [queryRun, h]

/-- Witness for C7 at a three-row result against `maxRows = 2`: two rows
come back and the warning event is in the trace. -/
theorem query_rows_bounded_witness :
    (@queryRun Nat sampleConfig (.ok ()) (.ok sampleResult)).1 =
      .ok { rows := [10, 20], rowCount := 3, fields := ["n"] } ∧
    DbEvent.warnTruncation 3 2 ∈
      (@queryRun Nat sampleConfig (.ok ()) (.ok sampleResult)).2 := by
  have h := query_rows_bounded sampleConfig sampleResult
  exact ⟨h.1, h.2.2.mp (by decide)⟩

/-! ## Claim C9 (connection released exactly once) -/

/-- C9: for every `query` or `execute` call in which a connection was
checked out (acquisition succeeded), the trace contains exactly one
release, whatever the statement outcome; when acquisition failed, no
connection was checked out and none is released. -/
theorem connection_release_discipline {α : Type} (cfg : DatabaseConfig)
    (connect : Except RawError Unit)
    (runQ runE : Except RawError (PgQueryResult α)) :
    (connect = .ok () →
      releaseCount (queryRun cfg connect runQ).2 = 1 ∧
      releaseCount (executeRun connect runE).2 = 1) ∧
    (∀ e, connect = .error e →
      releaseCount (queryRun cfg connect runQ).2 = 0 ∧
      releaseCount (executeRun connect runE).2 = 0) := by
  constructor
  · rintro rfl
    constructor
    · cases runQ with
      | ok r =>
        by_cases h : cfg.maxRows < (r.rows.length : Int) <;>
          simp [queryRun, h, releaseCount]
      | error e => rfl
    · cases runE with
      | ok r => rfl
      | error e => rfl
  · rintro e rfl
    exact ⟨rfl, rfl⟩

/-- Witness for C9: with acquisition succeeding, both a successful and a
failing statement produce exactly one release. -/
theorem connection_release_discipline_witness :
    releaseCount (@queryRun Nat sampleConfig (.ok ()) (.ok sampleResult)).2 = 1 ∧
    releaseCount (@executeRun Nat (.ok ()) (.error sampleRawError)).2 = 1 :=
  (connection_release_discipline sampleConfig (.ok ())
    (.ok sampleResult) (.error sampleRawError)).1 rfl

/-! ## Claim C5 (configuration invariants) -/

/-- C5 counterexample: nothing in the schema compares `poolMin` with
`poolMax`.  An environment asking for minimum 5 and maximum 2 passes
validation and the loader returns a configuration with
`poolMax < poolMin` instead of rejecting it. -/
theorem config_poolMinMax_unchecked_cex :
    loadConfigEnv poolMinMaxEnv = .ok poolMinMaxConfig ∧
    poolMinMaxConfig.poolMax < poolMinMaxConfig.poolMin :=
  ⟨rfl, by decide⟩

/-- C5 amended: every configuration the loader returns has all numeric
fields strictly positive (a non-positive or non-numeric value is rejected
at construction), but the relation poolMin ≤ poolMax is not validated. -/
theorem loadConfig_numerics_positive (env : EnvConfig)
    (cfg : DatabaseConfig) (h : loadConfigEnv env = .ok cfg) :
    0 < cfg.port ∧ 0 < cfg.poolMin ∧ 0 < cfg.poolMax ∧
    0 < cfg.poolIdleTimeout ∧ 0 < cfg.queryTimeout ∧ 0 < cfg.maxRows := by
  unfold loadConfigEnv schemaParse at h
  split at h
  next port poolMin poolMax poolIdleTimeout queryTimeout maxRows
      h1 h2 h3 h4 h5 h6 =>
    cases h
    exact ⟨zodPositiveInt_pos h1, zodPositiveInt_pos h2,
      zodPositiveInt_pos h3, zodPositiveInt_pos h4,
      zodPositiveInt_pos h5, zodPositiveInt_pos h6⟩
  next => exact absurd h (by simp)

/-- Witness for the amended C5 at the all-defaults environment. -/
theorem loadConfig_numerics_positive_witness :
    0 < defaultsConfig.port ∧ 0 < defaultsConfig.poolMin ∧
    0 < defaultsConfig.poolMax ∧ 0 < defaultsConfig.poolIdleTimeout ∧
    0 < defaultsConfig.queryTimeout ∧ 0 < defaultsConfig.maxRows :=
  loadConfig_numerics_positive emptyEnv defaultsConfig rfl

/-! ## Claim C6 (numeric environment fallback) -/

/-- C6 counterexample: a numeric environment variable that does not parse
as a number does not fall back to the default.  With the port variable set
to "abc", `parseInt` yields NaN, the schema rejects it, and configuration
resolution fails instead of succeeding with the default port. -/
theorem config_malformed_numeric_fails_cex :
    badPortEnv.port = some "abc" ∧
    parseIntJS "abc" = none ∧
    loadConfigEnv badPortEnv = .error "Invalid database configuration" :=
  ⟨rfl, rfl, rfl⟩

/-- C6 amended: for each numeric environment variable (port, pool min/max,
idle timeout, query timeout, max rows), an absent variable — and, through
JavaScript falsiness, one set to the empty string — silently falls back to
the hard default for its field; but a nonempty value on which `parseInt`
fails is not replaced by the default for any of them — it reaches the
schema as NaN and configuration resolution fails at startup. -/
theorem env_numeric_fallback (env : EnvConfig) :
    ((env.port = none ∨ env.port = some "") →
      (buildRawConfig env).port = some 5432) ∧
    ((env.poolMin = none ∨ env.poolMin = some "") →
      (buildRawConfig env).poolMin = some 2) ∧
    ((env.poolMax = none ∨ env.poolMax = some "") →
      (buildRawConfig env).poolMax = some 10) ∧
    ((env.poolIdleTimeout = none ∨ env.poolIdleTimeout = some "") →
      (buildRawConfig env).poolIdleTimeout = some 30000) ∧
    ((env.queryTimeout = none ∨ env.queryTimeout = some "") →
      (buildRawConfig env).queryTimeout = some 30000) ∧
    ((env.maxRows = none ∨ env.maxRows = some "") →
      (buildRawConfig env).maxRows = some 1000) ∧
    (∀ s, env.port = some s → (s == "") = false → parseIntJS s = none →
      loadConfigEnv env = .error "Invalid database configuration") ∧
    (∀ s, env.poolMin = some s → (s == "") = false → parseIntJS s = none →
      loadConfigEnv env = .error "Invalid database configuration") ∧
    (∀ s, env.poolMax = some s → (s == "") = false → parseIntJS s = none →
      loadConfigEnv env = .error "Invalid database configuration") ∧
    (∀ s, env.poolIdleTimeout = some s → (s == "") = false →
      parseIntJS s = none →
      loadConfigEnv env = .error "Invalid database configuration") ∧
    (∀ s, env.queryTimeout = some s → (s == "") = false →
      parseIntJS s = none →
      loadConfigEnv env = .error "Invalid database configuration") ∧
    (∀ s, env.maxRows = some s → (s == "") = false → parseIntJS s = none →
      loadConfigEnv env = .error "Invalid database configuration") := by
  refine ⟨?_, ?_, ?_, ?_, ?_, ?_, ?_, ?_, ?_, ?_, ?_, ?_⟩
  · rintro (h | h) <;> simp [buildRawConfig, envOr, h] <;> rfl
  · rintro (h | h) <;> simp [buildRawConfig, envOr, h] <;> rfl
  · rintro (h | h) <;> simp [buildRawConfig, envOr, h] <;> rfl
  · rintro (h | h) <;> simp [buildRawConfig, envOr, h] <;> rfl
  · rintro (h | h) <;> simp [buildRawConfig, envOr, h] <;> rfl
  · rintro (h | h) <;> simp [buildRawConfig, envOr, h] <;> rfl
  · intro s hs hne hparse
    have hx : (buildRawConfig env).port = none := by
      simp only [buildRawConfig]; rw [hs]; simp only [envOr, hne]
      simpa using hparse
    unfold loadConfigEnv
    exact schemaParse_error_of_nan _ (Or.inl hx)
  · intro s hs hne hparse
    have hx : (buildRawConfig env).poolMin = none := by
      simp only [buildRawConfig]; rw [hs]; simp only [envOr, hne]
      simpa using hparse
    unfold loadConfigEnv
    exact schemaParse_error_of_nan _ (Or.inr (Or.inl hx))
  · intro s hs hne hparse
    have hx : (buildRawConfig env).poolMax = none := by
      simp only [buildRawConfig]; rw [hs]; simp only [envOr, hne]
      simpa using hparse
    unfold loadConfigEnv
    exact schemaParse_error_of_nan _ (Or.inr (Or.inr (Or.inl hx)))
  · intro s hs hne hparse
    have hx : (buildRawConfig env).poolIdleTimeout = none := by
      simp only [buildRawConfig]; rw [hs]; simp only [envOr, hne]
      simpa using hparse
    unfold loadConfigEnv
    exact schemaParse_error_of_nan _ (Or.inr (Or.inr (Or.inr (Or.inl hx))))
  · intro s hs hne hparse
    have hx : (buildRawConfig env).queryTimeout = none := by
      simp only [buildRawConfig]; rw [hs]; simp only [envOr, hne]
      simpa using hparse
    unfold loadConfigEnv
    exact schemaParse_error_of_nan _
      (Or.inr (Or.inr (Or.inr (Or.inr (Or.inl hx)))))
  · intro s hs hne hparse
    have hx : (buildRawConfig env).maxRows = none := by
      simp only [buildRawConfig]; rw [hs]; simp only [envOr, hne]
      simpa using hparse
    unfold loadConfigEnv
    exact schemaParse_error_of_nan _
      (Or.inr (Or.inr (Or.inr (Or.inr (Or.inr hx)))))

/-- Witness for the amended C6: an unset port and an empty-string max-rows
variable fall back to their defaults; a malformed port and a malformed
pool-minimum are both fatal. -/
theorem env_numeric_fallback_witness :
    (buildRawConfig emptyEnv).port = some 5432 ∧
    (buildRawConfig { emptyEnv with maxRows := some "" }).maxRows =
      some 1000 ∧
    loadConfigEnv badPortEnv = .error "Invalid database configuration" ∧
    loadConfigEnv { emptyEnv with poolMin := some "xyz" } =
      .error "Invalid database configuration" :=
  ⟨(env_numeric_fallback emptyEnv).1 (Or.inl rfl),
   (env_numeric_fallback
      { emptyEnv with maxRows := some "" }).2.2.2.2.2.1 (Or.inr rfl),
   (env_numeric_fallback badPortEnv).2.2.2.2.2.2.1 "abc" rfl rfl rfl,
   (env_numeric_fallback
      { emptyEnv with poolMin := some "xyz" }).2.2.2.2.2.2.2.1
      "xyz" rfl rfl rfl⟩

/-! ## Claim C8 (identifier validation in the table tools) -/

/-- C8 counterexample: the table name "1bad" is rejected by both table
tools before anything reaches the pool, but the ValidationError carries
the fixed invalid-table-name text, which does not name the bad
identifier. -/
theorem table_name_error_anonymous_cex :
    createTableGuard "1bad" [] = .error (.validation invalidTableNameMsg) ∧
    describeTableGuard "1bad" = .error (.validation invalidTableNameMsg) ∧
    strContainsSub invalidTableNameMsg "1bad" = false :=
  ⟨rfl, rfl, rfl⟩

/-- C8 amended: both table tools require every table and column name to
match the identifier pattern, and a violation fails with a ValidationError
before any statement is sent to the pool; the error for a bad column name
embeds that identifier, while the error for a bad table name is a fixed
message that does not. -/
theorem table_identifier_validation (tableName : String)
    (columns : List ColumnDef) :
    (createTableGuard tableName columns = .ok () ↔
      (isValidIdentifier tableName = true ∧
        columns.all (fun col => isValidIdentifier col.name) = true)) ∧
    (describeTableGuard tableName = .ok () ↔
      isValidIdentifier tableName = true) ∧
    (isValidIdentifier tableName = false →
      createTableGuard tableName columns =
        .error (.validation invalidTableNameMsg)) ∧
    (∀ col, isValidIdentifier tableName = true →
      columns.find? (fun c => !(isValidIdentifier c.name)) = some col →
      createTableGuard tableName columns =
        .error (.validation (invalidColumnNameMsg col.name)) ∧
      strContainsSub (invalidColumnNameMsg col.name) col.name = true) := by
  refine ⟨?_, ?_, ?_, ?_⟩
  · unfold createTableGuard
    by_cases ht : isValidIdentifier tableName
    · rw [if_neg (by simp [ht])]
      cases hf : columns.find? (fun c => !(isValidIdentifier c.name)) with
      | some col =>
        have hcol : isValidIdentifier col.name = false := by
          simpa using List.find?_some hf
        have hmem : col ∈ columns := List.mem_of_find?_eq_some hf
        constructor
        · intro h; simp at h
        · rintro ⟨-, hall⟩
          have := (List.all_eq_true.mp hall) col hmem
          exact absurd this (by simp [hcol])
      | none =>
        have hall : ∀ col ∈ columns, isValidIdentifier col.name = true := by
          intro col hc
          simpa using List.find?_eq_none.mp hf col hc
        constructor
        · intro _
          exact ⟨ht, List.all_eq_true.mpr (fun col hc => by simp [hall col hc])⟩
        · intro _
          rfl
    · simp [ht]
  · unfold describeTableGuard
    by_cases ht : isValidIdentifier tableName <;> simp [ht]
  · intro ht
    unfold createTableGuard
    simp [ht]
  · intro col ht hf
    unfold createTableGuard
    rw [if_neg (by simp [ht]), hf]
    refine ⟨rfl, ?_⟩
    have : invalidColumnNameMsg col.name =
        ("Invalid column name " ++ squote) ++ col.name ++
          (squote ++
            ". Column names must start with a letter or underscore and contain only letters, numbers, and underscores.") := by
      simp [invalidColumnNameMsg, String.append_assoc]
    rw [this]
    exact strContainsSub_append _ _ _

/-- Witness for the amended C8: a bad column name is rejected with a
message embedding it, and the valid case goes through. -/
theorem table_identifier_validation_witness :
    (createTableGuard "t" [{ name := "1bad", type := "INTEGER", constraints := none }] =
      .error (.validation (invalidColumnNameMsg "1bad")) ∧
      strContainsSub (invalidColumnNameMsg "1bad") "1bad" = true) ∧
    createTableGuard "t" [{ name := "id", type := "INTEGER", constraints := none }] =
      .ok () :=
  ⟨(table_identifier_validation "t"
      [{ name := "1bad", type := "INTEGER", constraints := none }]).2.2.2
      { name := "1bad", type := "INTEGER", constraints := none } rfl rfl,
   (table_identifier_validation "t"
      [{ name := "id", type := "INTEGER", constraints := none }]).1.mpr
      ⟨rfl, rfl⟩⟩

/-! ## Claim C10 (exact create-table SQL text) -/

/-- C10: for every create-table input that passes identifier validation,
the SQL text sent to the engine is exactly the claim's concatenation —
"CREATE TABLE ", the optional "IF NOT EXISTS " clause, the table name, and
the parenthesized comma-separated column entries of name, space, type and
optional space-plus-constraints — with the type and constraints strings
embedded verbatim, unvalidated (they are universally quantified here;
only the two name hypotheses are required). -/
theorem createTable_sql_exact (tableName : String) (columns : List ColumnDef)
    (ifNotExists : Bool) (hTable : isValidIdentifier tableName = true)
    (hCols : ∀ col ∈ columns, isValidIdentifier col.name = true) :
    handleCreateTableSQL tableName columns ifNotExists =
      .ok (createTableSQLClaim tableName columns ifNotExists) := by
  have hf : columns.find? (fun c => !(isValidIdentifier c.name)) = none :=
    List.find?_eq_none.mpr (fun c hc => by simp [hCols c hc])
  unfold handleCreateTableSQL createTableGuard
  rw [if_neg (by simp [hTable]), hf]
  rfl

/-- Witness for C10: the constraints string and even a hostile type string
are embedded verbatim; only the names were validated. -/
theorem createTable_sql_exact_witness :
    handleCreateTableSQL "users"
        [{ name := "id", type := "INTEGER", constraints := some "PRIMARY KEY" },
         { name := "note", type := "TEXT); DROP TABLE users; --", constraints := none }]
        true =
      .ok "CREATE TABLE IF NOT EXISTS users (id INTEGER PRIMARY KEY, note TEXT); DROP TABLE users; --)" := by
  have h := createTable_sql_exact "users"
    [{ name := "id", type := "INTEGER", constraints := some "PRIMARY KEY" },
     { name := "note", type := "TEXT); DROP TABLE users; --", constraints := none }]
    true rfl (by decide)
  exact h.trans (by rfl)

end PgMcp
